import Mathlib

/-!
Shallow embedding of the Mastermind solver core of `src/main_Gui.py`
(repository Rodlemus03/Proyecto-2-inteligencia-artificial).

Modelling conventions:
* `COLORES` (line 17) becomes the six-constructor inductive `Color`.
* A code is an ordered 4-tuple of colors, `Code := Color × Color × Color × Color`.
* Python sets of codes become `Finset Code`.  `todas_combinaciones`
  (line 123) is always `list(itertools.product(COLORES, repeat=4))` and is
  never reassigned, so its underlying set is modelled by `Finset.univ` and
  its length by `(Finset.univ : Finset Code).card`.
* The scoring pass of `evaluar_combinacion` (lines 257-272) and of
  `_coincide_feedback` (lines 160-177) walks positions 0..3 once,
  incrementing `pos_correctas` on an exact match and otherwise bumping the
  per-color counters `counter1`/`counter2`.  The final counter values are
  therefore, per color, the number of mismatched positions holding that
  color; the embedding defines them directly as those (unrolled) counts.
* All randomness (`random.choice`, `random.sample`) is modelled by an
  oracle structure `Azar` supplying the values those calls may return;
  `Azar.valido` states exactly the constraints the `random` module
  guarantees (samples are duplicate-free lists of the requested size drawn
  from the population).  The GUI message boxes in the error branches of
  `actualizar_con_feedback` are modelled by the `ResultadoFiltro` outcome.
* The unbounded `while True` loop of `modo_automatico` (lines 274-304) is
  modelled with explicit fuel; the result `none` means the loop did not
  return within that many iterations.
* The propositional-logic classes (`Symbol`, `Not`, ..., lines 28-118) are
  dead code (`_agregar_restriccion_logica` is `pass`) and are not part of
  any claim, so they are not embedded.
-/

/-- The six game colors, `COLORES` in `main_Gui.py` line 17. -/
inductive Color where
  | azul
  | rojo
  | blanco
  | negro
  | verde
  | purpura
deriving DecidableEq, Fintype

/-- A code: an ordered sequence of exactly 4 colors (a Python 4-tuple). -/
abbrev Code : Type := Color × Color × Color × Color

instance : Nonempty Code := ⟨(Color.azul, Color.azul, Color.rojo, Color.verde)⟩

/-- Position access for a code, used by the reference (spec-level) scorer:
`c.en i` is the color at position `i` of `c`. -/
def Code.en (c : Code) : Fin 4 → Color := fun i =>
  match i with
  | ⟨0, _⟩ => c.1
  | ⟨1, _⟩ => c.2.1
  | ⟨2, _⟩ => c.2.2.1
  | ⟨3, _⟩ => c.2.2.2

/-- Exact-position matches: the `pos_correctas` accumulator of the single
pass over `range(4)` in `evaluar_combinacion` / `_coincide_feedback`,
unrolled over the four positions. -/
def pos_correctas : Code → Code → Nat
  | (a0, a1, a2, a3), (b0, b1, b2, b3) =>
    (if a0 = b0 then 1 else 0) + (if a1 = b1 then 1 else 0) +
      (if a2 = b2 then 1 else 0) + (if a3 = b3 then 1 else 0)

/-- Final value of `counter1[c]` after the scoring pass: the number of
mismatched positions where the first code holds color `c`. -/
def counter1 : Code → Code → Color → Nat
  | (a0, a1, a2, a3), (b0, b1, b2, b3), c =>
    (if ¬a0 = b0 ∧ a0 = c then 1 else 0) + (if ¬a1 = b1 ∧ a1 = c then 1 else 0) +
      (if ¬a2 = b2 ∧ a2 = c then 1 else 0) + (if ¬a3 = b3 ∧ a3 = c then 1 else 0)

/-- Final value of `counter2[c]` after the scoring pass: the number of
mismatched positions where the second code holds color `c`. -/
def counter2 : Code → Code → Color → Nat
  | (a0, a1, a2, a3), (b0, b1, b2, b3), c =>
    (if ¬a0 = b0 ∧ b0 = c then 1 else 0) + (if ¬a1 = b1 ∧ b1 = c then 1 else 0) +
      (if ¬a2 = b2 ∧ b2 = c then 1 else 0) + (if ¬a3 = b3 ∧ b3 = c then 1 else 0)

/-- Color-only matches: `sum(min(counter1[color], counter2[color]) for color
in COLORES)`, line 270 (and identically lines 175 and 229). -/
def colores_comunes (g t : Code) : Nat :=
  ∑ c : Color, min (counter1 g t c) (counter2 g t c)

/-- The feedback scorer `MastermindSolver.evaluar_combinacion`
(lines 257-272): number of exact-position matches paired with the number of
color-only matches. -/
def evaluar_combinacion (g t : Code) : Nat × Nat :=
  (pos_correctas g t, colores_comunes g t)

/-- The consistency predicate `MastermindKB._coincide_feedback`
(lines 160-177).  The Python method re-runs the same scoring pass as
`evaluar_combinacion` and compares the two tallies with the supplied
feedback. -/
def coincide_feedback (c1 c2 : Code) (p col : Nat) : Prop :=
  pos_correctas c1 c2 = p ∧ colores_comunes c1 c2 = col

instance (c1 c2 : Code) (p col : Nat) : Decidable (coincide_feedback c1 c2 p col) := by
  unfold coincide_feedback
  infer_instance

/-- Knowledge-base state (`MastermindKB`, lines 121-133): the set of codes
still consistent with all feedback so far.  The constant full list
`todas_combinaciones` is modelled by `Finset.univ` (see the header). -/
structure MastermindKB where
  combinaciones_posibles : Finset Code
deriving DecidableEq

/-- Freshly constructed knowledge base (`__post_init__`, line 129):
`combinaciones_posibles = set(todas_combinaciones)`, the full universe. -/
def MastermindKB.init : MastermindKB := ⟨Finset.univ⟩

/-- The `tamano_espacio_busqueda` method (lines 247-248). -/
def MastermindKB.tamano_espacio_busqueda (kb : MastermindKB) : Nat :=
  kb.combinaciones_posibles.card

/-- Outcome of a feedback update, distinguishing the three exit paths of
`actualizar_con_feedback`: the invalid-feedback warning (line 139), the
no-matching-combinations warning (line 150), and the normal update
(line 156). -/
inductive ResultadoFiltro where
  | feedback_invalido
  | sin_candidatos
  | actualizada
deriving DecidableEq

/-- The filter `MastermindKB.actualizar_con_feedback` (lines 135-158):
reject feedback whose components sum above 4 leaving the state untouched;
otherwise keep the consistent candidates, refusing the update (state
untouched) when that subset is empty while the current set is not. -/
def MastermindKB.actualizar_con_feedback (kb : MastermindKB) (combinacion : Code)
    (posiciones_correctas colores_correctos : Nat) : MastermindKB × ResultadoFiltro :=
  if 4 < posiciones_correctas + colores_correctos then
    (kb, .feedback_invalido)
  else
    let nuevas := kb.combinaciones_posibles.filter
      (fun candidato => coincide_feedback combinacion candidato posiciones_correctas colores_correctos)
    if nuevas = ∅ ∧ kb.combinaciones_posibles ≠ ∅ then
      (kb, .sin_candidatos)
    else
      (⟨nuevas⟩, .actualizada)

/-- Oracle for one call round of `siguiente_combinacion`, collecting the
values the `random` module may produce there: the tier-1 random code
(line 191), the element produced by `next(iter(...))` for sets of size ≤ 2
(line 197, iteration order of a Python set is unspecified, hence
oracle-chosen), the `random.choice` for sizes ≤ 10 (line 200), the sampled
probe list `combinaciones_a_evaluar` (lines 202-206), the per-probe
candidate sample (lines 216-217, one fresh sample per probe index), and the
`random.choice` fallback of line 243. -/
structure Azar where
  combinacion_aleatoria : Code
  eleccion_pequena : Code
  eleccion_mediana : Code
  combinaciones_a_evaluar : List Code
  muestra_candidatos : Nat → List Code
  eleccion_final : Code

/-- Constraints that an actual run of the `random` module guarantees for
the oracle values at a given knowledge-base state: chosen elements belong
to the non-empty candidate set, samples are duplicate-free lists of size
`min(k, len(population))` drawn from the stated population (the candidate
set for the per-probe samples always, and for the probe list whenever
`len(posibles) ≤ 50`; otherwise probes come from `todas_combinaciones`,
i.e. anywhere in the universe). -/
def Azar.valido (kb : MastermindKB) (r : Azar) : Prop :=
  (kb.combinaciones_posibles ≠ ∅ →
    r.eleccion_pequena ∈ kb.combinaciones_posibles ∧
    r.eleccion_mediana ∈ kb.combinaciones_posibles ∧
    r.eleccion_final ∈ kb.combinaciones_posibles) ∧
  r.combinaciones_a_evaluar.Nodup ∧
  r.combinaciones_a_evaluar.length = min 20 kb.combinaciones_posibles.card ∧
  (kb.combinaciones_posibles.card ≤ 50 →
    ∀ p ∈ r.combinaciones_a_evaluar, p ∈ kb.combinaciones_posibles) ∧
  ∀ k < r.combinaciones_a_evaluar.length,
    (r.muestra_candidatos k).Nodup ∧
    (r.muestra_candidatos k).length = min 50 kb.combinaciones_posibles.card ∧
    ∀ c ∈ r.muestra_candidatos k, c ∈ kb.combinaciones_posibles

/-- Worst-case partition size for one probe (`max_conjunto_restante`,
lines 212-236): the sampled candidates are partitioned by the feedback they
would produce against the probe, and the score is the size of the largest
class (the running maximum over incremental counts equals the largest final
multiplicity). -/
def max_conjunto_restante (combinacion : Code) (muestra : List Code) : Nat :=
  let fbs := muestra.map (fun candidato => evaluar_combinacion combinacion candidato)
  (fbs.map (fun fb => fbs.count fb)).foldl max 0

/-- The probe-selection loop of `siguiente_combinacion` (lines 208-245):
score each sampled probe and keep the first one achieving the strictly
smallest worst-case partition size (`<` comparison, line 238, so ties keep
the earlier probe); `none` corresponds to `mejor_combinacion is None`. -/
def mejor_combinacion (r : Azar) : Option Code :=
  (r.combinaciones_a_evaluar.enum.foldl
    (fun (mejor : Option (Code × Nat)) p =>
      let punt := max_conjunto_restante p.2 (r.muestra_candidatos p.1)
      match mejor with
      | none => some (p.2, punt)
      | some (b, bp) => if punt < bp then some (p.2, punt) else some (b, bp))
    none).map Prod.fst

/-- The tiered guess selector `MastermindKB.siguiente_combinacion`
(lines 184-245): random recovery code on an empty set; the fixed opening
`("azul", "azul", "rojo", "verde")` when no feedback has been applied yet
(`len(posibles) == len(todas)`, lines 193-194); an arbitrary element for
sizes ≤ 2; a random element for sizes ≤ 10; otherwise sampled minimax with
the line-243 random fallback if no probe was scored. -/
def MastermindKB.siguiente_combinacion (kb : MastermindKB) (r : Azar) : Code :=
  if kb.combinaciones_posibles = ∅ then r.combinacion_aleatoria
  else if kb.combinaciones_posibles.card = (Finset.univ : Finset Code).card then
    (Color.azul, Color.azul, Color.rojo, Color.verde)
  else if kb.combinaciones_posibles.card ≤ 2 then r.eleccion_pequena
  else if kb.combinaciones_posibles.card ≤ 10 then r.eleccion_mediana
  else
    match mejor_combinacion r with
    | none => r.eleccion_final
    | some b => b

/-- One filtering step of the automated loop (lines 287-299): score the
issued guess against the secret and update the knowledge base with that
feedback. -/
def kb_tras_feedback (combinacion_secreta combinacion : Code) (kb : MastermindKB) : MastermindKB :=
  let fb := evaluar_combinacion combinacion combinacion_secreta
  (kb.actualizar_con_feedback combinacion fb.1 fb.2).1

/-- The `while True` body of `modo_automatico` (lines 279-304), with
explicit fuel: increment the attempt counter, ask the selector for a guess,
score it against the secret, return `(intentos, historia)` on 4 exact
matches, and otherwise filter and append the new space size to the
history.  `none` means the loop did not return within `fuel` iterations. -/
def ciclo_automatico (combinacion_secreta : Code) (rng : Nat → Azar) :
    Nat → MastermindKB → Nat → List Nat → Option (Nat × List Nat)
  | 0, _, _, _ => none
  | fuel + 1, kb, intentos, historia =>
    let combinacion := kb.siguiente_combinacion (rng (intentos + 1))
    let fb := evaluar_combinacion combinacion combinacion_secreta
    if fb.1 = 4 then some (intentos + 1, historia)
    else
      let kb' := kb_tras_feedback combinacion_secreta combinacion kb
      ciclo_automatico combinacion_secreta rng fuel kb' (intentos + 1)
        (historia ++ [kb'.tamano_espacio_busqueda])

/-- `MastermindSolver.modo_automatico` (lines 274-304): reset the knowledge
base to the full universe, the attempt counter to 0 and the history to
`[tamano_espacio_busqueda()]`, then run the loop. -/
def MastermindSolver.modo_automatico (combinacion_secreta : Code) (rng : Nat → Azar)
    (fuel : Nat) : Option (Nat × List Nat) :=
  ciclo_automatico combinacion_secreta rng fuel MastermindKB.init 0
    [MastermindKB.init.tamano_espacio_busqueda]

/-- Solver session state (`MastermindSolver`, lines 251-255). -/
structure MastermindSolver where
  kb : MastermindKB
  intentos : Nat
  historia_espacio_busqueda : List Nat
deriving DecidableEq

/-- `MastermindSolver.procesar_intento_tiempo_real` (lines 306-315):
return `true` (solved) on 4 exact positions; otherwise update the
knowledge base with the externally supplied feedback, append the new space
size to the history, and return `false`.  The attempt counter is not
touched by this method. -/
def MastermindSolver.procesar_intento_tiempo_real (s : MastermindSolver)
    (combinacion : Code) (pos_corr colores_corr : Nat) : MastermindSolver × Bool :=
  if pos_corr = 4 then (s, true)
  else
    let kb' := (s.kb.actualizar_con_feedback combinacion pos_corr colores_corr).1
    (⟨kb', s.intentos, s.historia_espacio_busqueda ++ [kb'.tamano_espacio_busqueda]⟩, false)

/-- Validity of one run of the automated loop with respect to the random
module: at every iteration actually executed, the oracle round consumed
there satisfies `Azar.valido` for the knowledge-base state of that
iteration. -/
def ejecucion_valida (combinacion_secreta : Code) (rng : Nat → Azar) :
    Nat → MastermindKB → Nat → Prop
  | 0, _, _ => True
  | fuel + 1, kb, intentos =>
    Azar.valido kb (rng (intentos + 1)) ∧
    ((evaluar_combinacion (kb.siguiente_combinacion (rng (intentos + 1))) combinacion_secreta).1 = 4 ∨
      ejecucion_valida combinacion_secreta rng fuel
        (kb_tras_feedback combinacion_secreta (kb.siguiente_combinacion (rng (intentos + 1))) kb)
        (intentos + 1))

/-- Property of a run of the automated loop: every guess the selector
issues while the loop keeps going belongs to the then-current candidate
set. -/
def guias_en_posibles (combinacion_secreta : Code) (rng : Nat → Azar) :
    Nat → MastermindKB → Nat → Prop
  | 0, _, _ => True
  | fuel + 1, kb, intentos =>
    kb.siguiente_combinacion (rng (intentos + 1)) ∈ kb.combinaciones_posibles ∧
    ((evaluar_combinacion (kb.siguiente_combinacion (rng (intentos + 1))) combinacion_secreta).1 = 4 ∨
      guias_en_posibles combinacion_secreta rng fuel
        (kb_tras_feedback combinacion_secreta (kb.siguiente_combinacion (rng (intentos + 1))) kb)
        (intentos + 1))

/-!
Reference scorer, written directly from the words of the specification
(section 4.1): exact matches are the positions where the two codes agree,
and color matches are, per symbol, the minimum of its occurrence counts
among the two codes' leftover (mismatched-position) symbol lists.
-/

/-- The four positions of a code, in order. -/
def posiciones : List (Fin 4) := [0, 1, 2, 3]

/-- Reference exact-match count: the number of positions `i` in 0..3 with
`g[i] = t[i]`. -/
def exactitud_referencia (g t : Code) : Nat :=
  ((Finset.univ : Finset (Fin 4)).filter (fun i => Code.en g i = Code.en t i)).card

/-- Symbols of `g` at the positions where `g` and `t` differ. -/
def sobrantes_guia (g t : Code) : List Color :=
  (posiciones.filter (fun i => Code.en g i != Code.en t i)).map (Code.en g)

/-- Symbols of `t` at the positions where `g` and `t` differ. -/
def sobrantes_secreto (g t : Code) : List Color :=
  (posiciones.filter (fun i => Code.en g i != Code.en t i)).map (Code.en t)

/-- Reference color-match count: sum over the alphabet of the minimum of
each symbol's occurrence counts among the two leftover lists. -/
def colores_referencia (g t : Code) : Nat :=
  ∑ c : Color, min ((sobrantes_guia g t).count c) ((sobrantes_secreto g t).count c)

/-- Reference score of a guess against a target, per the specification. -/
def puntuacion_referencia (g t : Code) : Nat × Nat :=
  (exactitud_referencia g t, colores_referencia g t)

/-!
Input parsing.  Python strings are modelled as lists of characters;
`str.split(',')`, `str.split()`, `str.strip()` and `str.lower()` are
modelled by the executable list functions below.
-/

/-- Splitting a character list at every character satisfying `p`, keeping
empty fragments — the behaviour of Python `str.split(sep)` for a
one-character separator when `p` tests for that separator. -/
def dividir_pred (p : Char → Bool) : List Char → List (List Char)
  | [] => [[]]
  | c :: resto =>
    match dividir_pred p resto with
    | [] => [[]]
    | t :: ts => if p c then [] :: t :: ts else (c :: t) :: ts

/-- Python `str.strip()`: drop whitespace from both ends. -/
def recortar (s : List Char) : List Char :=
  ((s.dropWhile Char.isWhitespace).reverse.dropWhile Char.isWhitespace).reverse

/-- Python `str.lower()` on the relevant (ASCII) alphabet. -/
def a_minusculas (s : List Char) : List Char := s.map Char.toLower

/-- The token list built by `convertir_entrada_a_combinacion`
(lines 321-325): split on commas when the input contains one (keeping
empty fragments, as Python `split(',')` does) and otherwise on whitespace
runs (discarding empty fragments, as Python `split()` does), then strip
and lowercase every fragment. -/
def tokens_de (entrada : List Char) : List (List Char) :=
  if entrada.contains ',' then
    (dividir_pred (fun c => c == ',') entrada).map (fun t => a_minusculas (recortar t))
  else
    ((dividir_pred Char.isWhitespace entrada).filter (fun t => t ≠ [])).map
      (fun t => a_minusculas (recortar t))

/-- The color names, `COLORES` of line 17 as strings. -/
def COLORES : List (List Char) :=
  ["azul".toList, "rojo".toList, "blanco".toList, "negro".toList,
    "verde".toList, "purpura".toList]

/-- Lookup of a (stripped, lowercased) token among the color names, the
`color not in COLORES` test of line 332 combined with building the
resulting tuple entry. -/
def color_de_nombre (s : List Char) : Option Color :=
  if s = "azul".toList then some .azul
  else if s = "rojo".toList then some .rojo
  else if s = "blanco".toList then some .blanco
  else if s = "negro".toList then some .negro
  else if s = "verde".toList then some .verde
  else if s = "purpura".toList then some .purpura
  else none

/-- The parser `convertir_entrada_a_combinacion` (lines 321-336): `none`
models the `messagebox.showerror` + `return None` paths (wrong token count,
line 327, or unknown color, line 331); `some` models `return
tuple(colores)`. -/
def convertir_entrada_a_combinacion (entrada : List Char) : Option Code :=
  match tokens_de entrada with
  | [c1, c2, c3, c4] =>
    match color_de_nombre c1, color_de_nombre c2, color_de_nombre c3, color_de_nombre c4 with
    | some a, some b, some c, some d => some (a, b, c, d)
    | _, _, _, _ => none
  | _ => none

/-!
A concrete adversarial-but-legal behaviour of the random source under
which the automated loop never terminates (used for claim C3).  With
secret `(negro, negro, negro, negro)`, the fixed opening reduces the
candidate set to the 81 codes over `{blanco, negro, purpura}`.  From then
on the selector is in the sampled-minimax tier with `|posibles| = 81 > 50`,
so probes are legally sampled from the full universe; the oracle always
returns 20 probes over `{azul, rojo, verde}`.  Every sampled candidate
then scores `(0, 0)` against every probe (the color sets are disjoint), so
every probe's worst-case partition is the whole 50-element sample and the
first probe is kept.  Filtering the 81 candidates with the true feedback
`(0, 0)` of that probe keeps all of them, so the state never changes. -/

/-- The fixed opening probe of line 194. -/
def apertura : Code := (Color.azul, Color.azul, Color.rojo, Color.verde)

/-- The secret of the non-terminating run. -/
def secreto_adverso : Code := (Color.negro, Color.negro, Color.negro, Color.negro)

/-- The three colors absent from the opening probe. -/
def lista_bnp : List Color := [Color.blanco, Color.negro, Color.purpura]

/-- The three colors of the opening probe. -/
def lista_arv : List Color := [Color.azul, Color.rojo, Color.verde]

/-- All 81 codes over `{blanco, negro, purpura}` — the candidate set after
the opening probe is scored against `secreto_adverso`. -/
def lista81 : List Code :=
  lista_bnp.flatMap fun a => lista_bnp.flatMap fun b => lista_bnp.flatMap fun c =>
    lista_bnp.map fun d => (a, b, c, d)

/-- A legal 50-element sample from those 81 candidates. -/
def lista50 : List Code := lista81.take 50

/-- All 27 codes over `{azul, rojo, verde}`. -/
def lista27 : List Code :=
  lista_arv.flatMap fun a => lista_arv.flatMap fun b => lista_arv.flatMap fun c =>
    lista_arv.map fun d => (a, b, c, d)

/-- A legal 20-probe sample from the full universe, entirely over
`{azul, rojo, verde}`. -/
def probes20 : List Code := lista27.take 20

/-- The stationary adversarial oracle round. -/
def azar_adverso : Azar where
  combinacion_aleatoria := apertura
  eleccion_pequena := secreto_adverso
  eleccion_mediana := secreto_adverso
  combinaciones_a_evaluar := probes20
  muestra_candidatos := fun _ => lista50
  eleccion_final := secreto_adverso

/-- The adversarial random source: the same legal round at every call. -/
def rng_adverso : Nat → Azar := fun _ => azar_adverso

/-- The knowledge base the adversarial run is stuck at: the 81 codes over
`{blanco, negro, purpura}`. -/
def kb_atascada : MastermindKB := ⟨lista81.toFinset⟩

/-- The probe the adversarial minimax tier always settles on: the head of
`probes20` (ties in the worst-case score keep the first probe). -/
def primera_probe : Code := (Color.azul, Color.azul, Color.azul, Color.azul)

/-!
Helper lemmas about the scorer.
-/

/-- Summing over the alphabet an indicator that pins the color to `x`
collapses to the indicator of the remaining condition. -/
theorem suma_indicador (P : Prop) [Decidable P] (x : Color) :
    (∑ c : Color, if P ∧ x = c then 1 else 0) = if P then 1 else 0 := by
  have h : ∀ c : Color, (if P ∧ x = c then 1 else 0) =
      if x = c then (if P then 1 else 0) else 0 := by
    intro c
    by_cases hP : P <;> by_cases hx : x = c <;> simp [hP, hx]
  rw [Finset.sum_congr rfl (fun c _ => h c), Finset.sum_ite_eq]
  simp

/-- The exact matches plus the leftover occurrences of the first code
account for all four positions. -/
theorem pos_mas_counter1 (g t : Code) :
    pos_correctas g t + (∑ c : Color, counter1 g t c) = 4 := by
  obtain ⟨a0, a1, a2, a3⟩ := g
  obtain ⟨b0, b1, b2, b3⟩ := t
  simp only [pos_correctas, counter1]
  rw [Finset.sum_add_distrib, Finset.sum_add_distrib, Finset.sum_add_distrib,
    suma_indicador, suma_indicador, suma_indicador, suma_indicador]
  by_cases h0 : a0 = b0 <;> by_cases h1 : a1 = b1 <;> by_cases h2 : a2 = b2 <;>
    by_cases h3 : a3 = b3 <;> simp [h0, h1, h2, h3]

/-- The color tally is bounded by the total number of leftover positions. -/
theorem colores_le_counter1 (g t : Code) :
    colores_comunes g t ≤ ∑ c : Color, counter1 g t c :=
  Finset.sum_le_sum fun c _ => min_le_left _ _

/-- Exact and color matches together never exceed the code length. -/
theorem feedback_le_four (g t : Code) :
    pos_correctas g t + colores_comunes g t ≤ 4 := by
  have h1 := pos_mas_counter1 g t
  have h2 := colores_le_counter1 g t
  omega

/-- A guess scores 4 exact positions against a target exactly when the two
codes are equal. -/
theorem pos_correctas_eq_four_iff (g t : Code) : pos_correctas g t = 4 ↔ g = t := by
  obtain ⟨a0, a1, a2, a3⟩ := g
  obtain ⟨b0, b1, b2, b3⟩ := t
  simp only [pos_correctas, Prod.mk.injEq]
  by_cases h0 : a0 = b0 <;> by_cases h1 : a1 = b1 <;> by_cases h2 : a2 = b2 <;>
    by_cases h3 : a3 = b3 <;> simp [h0, h1, h2, h3]

/-!
Helper lemmas about the filter and the guess selector.
-/

/-- When the feedback comes from scoring the guess against a member of the
candidate set, `actualizar_con_feedback` takes its update branch: the
feedback sum is within bounds and the consistent subset contains that
member, hence is non-empty. -/
theorem kb_tras_feedback_eq (kb : MastermindKB) (combinacion combinacion_secreta : Code)
    (h : combinacion_secreta ∈ kb.combinaciones_posibles) :
    kb_tras_feedback combinacion_secreta combinacion kb =
      ⟨kb.combinaciones_posibles.filter
        (fun candidato => coincide_feedback combinacion candidato
          (pos_correctas combinacion combinacion_secreta)
          (colores_comunes combinacion combinacion_secreta))⟩ := by
  have hmem : combinacion_secreta ∈ kb.combinaciones_posibles.filter
      (fun candidato => coincide_feedback combinacion candidato
        (pos_correctas combinacion combinacion_secreta)
        (colores_comunes combinacion combinacion_secreta)) :=
    Finset.mem_filter.mpr ⟨h, rfl, rfl⟩
  have hne : kb.combinaciones_posibles.filter
      (fun candidato => coincide_feedback combinacion candidato
        (pos_correctas combinacion combinacion_secreta)
        (colores_comunes combinacion combinacion_secreta)) ≠ ∅ :=
    Finset.ne_empty_of_mem hmem
  have hle := feedback_le_four combinacion combinacion_secreta
  simp only [kb_tras_feedback, evaluar_combinacion, MastermindKB.actualizar_con_feedback]
  rw [if_neg (by omega), if_neg (fun hand => hne hand.1)]

/-- The secret survives one filtering step driven by its own feedback. -/
theorem secreto_permanece (kb : MastermindKB) (combinacion combinacion_secreta : Code)
    (h : combinacion_secreta ∈ kb.combinaciones_posibles) :
    combinacion_secreta ∈
      (kb_tras_feedback combinacion_secreta combinacion kb).combinaciones_posibles := by
  rw [kb_tras_feedback_eq kb combinacion combinacion_secreta h]
  exact Finset.mem_filter.mpr ⟨h, rfl, rfl⟩

/-- Cardinality of the universe of codes: `6 ^ 4 = 1296`. -/
theorem card_universo : (Finset.univ : Finset Code).card = 1296 := by
  have hc : Fintype.card Color = 6 := by decide
  rw [Finset.card_univ]
  show Fintype.card (Color × Color × Color × Color) = 1296
  rw [Fintype.card_prod, Fintype.card_prod, Fintype.card_prod, hc]

/-- With a candidate set as large as the universe, the selector returns the
fixed opening regardless of the oracle. -/
theorem siguiente_lleno (kb : MastermindKB) (r : Azar)
    (h : kb.combinaciones_posibles.card = (Finset.univ : Finset Code).card) :
    kb.siguiente_combinacion r = (Color.azul, Color.azul, Color.rojo, Color.verde) := by
  have hpos : 0 < kb.combinaciones_posibles.card := by
    rw [h, card_universo]; omega
  have hne : kb.combinaciones_posibles ≠ ∅ :=
    Finset.nonempty_iff_ne_empty.mp (Finset.card_pos.mp hpos)
  simp only [MastermindKB.siguiente_combinacion]
  rw [if_neg hne, if_pos h]

/-- Claim C2: for every code `guess` and every secret that is a member of
the current candidate set, filtering the candidate set with the feedback
produced by scoring `guess` against that secret (the step
`kb_tras_feedback`, which is exactly the filtering step performed by every
iteration of `modo_automatico`) leaves the secret in the resulting
candidate set; hence the true secret remains a member after every
filtering step of an automated run. -/
theorem c2_secreto_siempre_posible (kb : MastermindKB)
    (combinacion combinacion_secreta : Code)
    (h : combinacion_secreta ∈ kb.combinaciones_posibles) :
    combinacion_secreta ∈
      (kb_tras_feedback combinacion_secreta combinacion kb).combinaciones_posibles :=
  secreto_permanece kb combinacion combinacion_secreta h

/-- Witness for C2 at a concrete input: a singleton candidate set holding
the secret still holds it after filtering on the opening guess. -/
theorem c2_secreto_siempre_posible_testigo :
    secreto_adverso ∈ (⟨{secreto_adverso}⟩ : MastermindKB).combinaciones_posibles ∧
      secreto_adverso ∈
        (kb_tras_feedback secreto_adverso apertura
          ⟨{secreto_adverso}⟩).combinaciones_posibles :=
  ⟨by decide, c2_secreto_siempre_posible ⟨{secreto_adverso}⟩ apertura secreto_adverso (by decide)⟩

/-- Claim C6: a successful filter application (one whose outcome is
`actualizada`, i.e. the candidate set was replaced) produces a subset of
the previous candidate set, and in particular a set of no larger
cardinality. -/
theorem c6_filtrado_monotono (kb : MastermindKB) (combinacion : Code) (p col : Nat)
    (h : (kb.actualizar_con_feedback combinacion p col).2 = .actualizada) :
    (kb.actualizar_con_feedback combinacion p col).1.combinaciones_posibles ⊆
        kb.combinaciones_posibles ∧
      (kb.actualizar_con_feedback combinacion p col).1.tamano_espacio_busqueda ≤
        kb.tamano_espacio_busqueda := by
  simp only [MastermindKB.actualizar_con_feedback]
  split_ifs with h1 h2
  · exact ⟨Finset.Subset.refl _, le_refl _⟩
  · exact ⟨Finset.Subset.refl _, le_refl _⟩
  · exact ⟨Finset.filter_subset _ _, Finset.card_filter_le _ _⟩

/-- Witness for C6 at a concrete input: filtering a two-element set with
feedback `(4, 0)` on the opening succeeds and shrinks it to a subset. -/
theorem c6_filtrado_monotono_testigo :
    ((⟨{apertura, secreto_adverso}⟩ : MastermindKB).actualizar_con_feedback
        apertura 4 0).2 = .actualizada ∧
      (((⟨{apertura, secreto_adverso}⟩ : MastermindKB).actualizar_con_feedback
          apertura 4 0).1.combinaciones_posibles ⊆
          ({apertura, secreto_adverso} : Finset Code) ∧
        ((⟨{apertura, secreto_adverso}⟩ : MastermindKB).actualizar_con_feedback
          apertura 4 0).1.tamano_espacio_busqueda ≤
          (⟨{apertura, secreto_adverso}⟩ : MastermindKB).tamano_espacio_busqueda) :=
  ⟨by decide, c6_filtrado_monotono ⟨{apertura, secreto_adverso}⟩ apertura 4 0 (by decide)⟩

/-- Claim C7: for all codes, the scorer's exact-match count and color-match
count are each at most 4 (they are naturals, so at least 0), and their sum
is at most 4. -/
theorem c7_cotas_feedback (g t : Code) :
    (evaluar_combinacion g t).1 ≤ 4 ∧ (evaluar_combinacion g t).2 ≤ 4 ∧
      (evaluar_combinacion g t).1 + (evaluar_combinacion g t).2 ≤ 4 := by
  have h := feedback_le_four g t
  simp only [evaluar_combinacion]
  exact ⟨by omega, by omega, h⟩

/-- Claim C8: whenever the candidate set has the same cardinality as the
universe (no feedback applied yet), the selector deterministically returns
the fixed opening `(azul, azul, rojo, verde)`, for every oracle, i.e.
independently of the random source. -/
theorem c8_apertura_fija (kb : MastermindKB) (r : Azar)
    (h : kb.combinaciones_posibles.card = (Finset.univ : Finset Code).card) :
    kb.siguiente_combinacion r = (Color.azul, Color.azul, Color.rojo, Color.verde) :=
  siguiente_lleno kb r h

/-- Witness for C8 at a concrete input: the freshly initialized knowledge
base with the adversarial oracle round. -/
theorem c8_apertura_fija_testigo :
    MastermindKB.init.combinaciones_posibles.card = (Finset.univ : Finset Code).card ∧
      MastermindKB.init.siguiente_combinacion azar_adverso =
        (Color.azul, Color.azul, Color.rojo, Color.verde) :=
  ⟨rfl, c8_apertura_fija MastermindKB.init azar_adverso rfl⟩

/-- Counterexample to claim C4 as stated: applying feedback `(3, 2)` (sum
5 > 4) through `procesar_intento_tiempo_real` does not leave the solver
state exactly as before — the size history gains an entry (the unchanged
size re-appended), because the method appends to
`historia_espacio_busqueda` unconditionally after the (rejected) update. -/
theorem c4_contraejemplo :
    ((⟨⟨{apertura}⟩, 0, [1]⟩ : MastermindSolver).procesar_intento_tiempo_real
        apertura 3 2).1.historia_espacio_busqueda ≠
      (⟨⟨{apertura}⟩, 0, [1]⟩ : MastermindSolver).historia_espacio_busqueda := by
  decide

/-- Claim C4 as amended: if feedback with `exact + color > 4` is applied,
`actualizar_con_feedback` rejects it and leaves the candidate set
untouched; in the step-wise mode `procesar_intento_tiempo_real` the
candidate set and the attempt counter are likewise untouched, but (unless
`exact = 4`, which returns immediately) the current — unchanged — space
size is appended to the size history. -/
theorem c4_feedback_invalido_estado (s : MastermindSolver) (combinacion : Code)
    (p col : Nat) (h : 4 < p + col) :
    s.kb.actualizar_con_feedback combinacion p col = (s.kb, .feedback_invalido) ∧
      (s.procesar_intento_tiempo_real combinacion p col).1.kb = s.kb ∧
      (s.procesar_intento_tiempo_real combinacion p col).1.intentos = s.intentos ∧
      (s.procesar_intento_tiempo_real combinacion p col).1.historia_espacio_busqueda =
        (if p = 4 then s.historia_espacio_busqueda
          else s.historia_espacio_busqueda ++ [s.kb.tamano_espacio_busqueda]) := by
  have hact : s.kb.actualizar_con_feedback combinacion p col = (s.kb, .feedback_invalido) := by
    simp only [MastermindKB.actualizar_con_feedback]
    rw [if_pos h]
  refine ⟨hact, ?_, ?_, ?_⟩ <;>
    · simp only [MastermindSolver.procesar_intento_tiempo_real]
      split_ifs with h4 <;> simp [hact]

/-- Witness for the amended C4 at a concrete input: feedback `(3, 2)`. -/
theorem c4_feedback_invalido_estado_testigo :
    4 < 3 + 2 ∧
      ((⟨⟨{apertura}⟩, 0, [1]⟩ : MastermindSolver).kb.actualizar_con_feedback
          apertura 3 2 = ((⟨⟨{apertura}⟩, 0, [1]⟩ : MastermindSolver).kb, .feedback_invalido) ∧
        ((⟨⟨{apertura}⟩, 0, [1]⟩ : MastermindSolver).procesar_intento_tiempo_real
          apertura 3 2).1.kb = (⟨⟨{apertura}⟩, 0, [1]⟩ : MastermindSolver).kb ∧
        ((⟨⟨{apertura}⟩, 0, [1]⟩ : MastermindSolver).procesar_intento_tiempo_real
          apertura 3 2).1.intentos = (⟨⟨{apertura}⟩, 0, [1]⟩ : MastermindSolver).intentos ∧
        ((⟨⟨{apertura}⟩, 0, [1]⟩ : MastermindSolver).procesar_intento_tiempo_real
          apertura 3 2).1.historia_espacio_busqueda =
          (if (3 : Nat) = 4 then (⟨⟨{apertura}⟩, 0, [1]⟩ : MastermindSolver).historia_espacio_busqueda
            else (⟨⟨{apertura}⟩, 0, [1]⟩ : MastermindSolver).historia_espacio_busqueda ++
              [(⟨⟨{apertura}⟩, 0, [1]⟩ : MastermindSolver).kb.tamano_espacio_busqueda])) :=
  ⟨by omega, c4_feedback_invalido_estado ⟨⟨{apertura}⟩, 0, [1]⟩ apertura 3 2 (by omega)⟩

/-- Counterexample to claim C5 as stated: with feedback `(3, 2)` on a
non-empty candidate set, the subset of consistent candidates is empty
(no candidate can score exact 3 and color 2, whose sum exceeds 4), yet the
operation signals the invalid-feedback condition — not the
no-consistent-candidates condition — because the sum check fires first. -/
theorem c5_contraejemplo :
    (⟨{apertura}⟩ : MastermindKB).combinaciones_posibles ≠ ∅ ∧
      (⟨{apertura}⟩ : MastermindKB).combinaciones_posibles.filter
        (fun candidato => coincide_feedback apertura candidato 3 2) = ∅ ∧
      ((⟨{apertura}⟩ : MastermindKB).actualizar_con_feedback apertura 3 2).2 ≠
        .sin_candidatos := by
  refine ⟨by decide, by decide, ?_⟩
  simp only [MastermindKB.actualizar_con_feedback]
  rw [if_pos (by omega : 4 < 3 + 2)]
  decide

/-- Claim C5 as amended: for feedback whose components sum to at most 4
(so that the invalid-feedback rejection does not fire first), if the
subset of candidates consistent with it is empty while the candidate set
is non-empty, the operation signals the no-consistent-candidates
condition and leaves the candidate set unchanged. -/
theorem c5_sin_candidatos_estado (kb : MastermindKB) (combinacion : Code) (p col : Nat)
    (hle : p + col ≤ 4)
    (hne : kb.combinaciones_posibles ≠ ∅)
    (hvacio : kb.combinaciones_posibles.filter
      (fun candidato => coincide_feedback combinacion candidato p col) = ∅) :
    kb.actualizar_con_feedback combinacion p col = (kb, .sin_candidatos) := by
  simp only [MastermindKB.actualizar_con_feedback]
  rw [if_neg (by omega), if_pos ⟨hvacio, hne⟩]

/-- Witness for the amended C5 at a concrete input: feedback `(0, 4)` on a
singleton set whose element scores `(4, 0)` against itself. -/
theorem c5_sin_candidatos_estado_testigo :
    0 + 4 ≤ 4 ∧ (⟨{apertura}⟩ : MastermindKB).combinaciones_posibles ≠ ∅ ∧
      (⟨{apertura}⟩ : MastermindKB).combinaciones_posibles.filter
        (fun candidato => coincide_feedback apertura candidato 0 4) = ∅ ∧
      (⟨{apertura}⟩ : MastermindKB).actualizar_con_feedback apertura 0 4 =
        (⟨{apertura}⟩, .sin_candidatos) :=
  ⟨by omega, by decide, by decide,
    c5_sin_candidatos_estado ⟨{apertura}⟩ apertura 0 4 (by omega) (by decide) (by decide)⟩

/-!
Helper lemmas for the reference scorer of claim C1.
-/

theorem en_cero (c : Code) : Code.en c 0 = c.1 := rfl

theorem en_uno (c : Code) : Code.en c 1 = c.2.1 := rfl

theorem en_dos (c : Code) : Code.en c 2 = c.2.2.1 := rfl

theorem en_tres (c : Code) : Code.en c 3 = c.2.2.2 := rfl

/-- The reference exact-match count agrees with the scorer's tally. -/
theorem exactitud_eq (g t : Code) : exactitud_referencia g t = pos_correctas g t := by
  obtain ⟨a0, a1, a2, a3⟩ := g
  obtain ⟨b0, b1, b2, b3⟩ := t
  rw [exactitud_referencia, Finset.card_filter, Fin.sum_univ_four]
  simp only [en_cero, en_uno, en_dos, en_tres, pos_correctas]

/-- Occurrence counts in the guess's leftover list agree with the
scorer's first counter. -/
theorem count_sobrantes_guia (g t : Code) (c : Color) :
    (sobrantes_guia g t).count c = counter1 g t c := by
  obtain ⟨a0, a1, a2, a3⟩ := g
  obtain ⟨b0, b1, b2, b3⟩ := t
  by_cases h0 : a0 = b0 <;> by_cases h1 : a1 = b1 <;> by_cases h2 : a2 = b2 <;>
    by_cases h3 : a3 = b3 <;>
    (simp only [sobrantes_guia, posiciones, counter1, List.filter_cons, List.filter_nil,
      en_cero, en_uno, en_dos, en_tres, bne_iff_ne, ne_eq, h0, h1, h2, h3,
      not_false_eq_true, not_true_eq_false, ite_true, ite_false, false_and, true_and,
      List.map_cons, List.map_nil, List.count_cons, List.count_nil, beq_iff_eq] <;>
      first
        | (split_ifs <;> omega)
        | omega)

/-- Occurrence counts in the target's leftover list agree with the
scorer's second counter. -/
theorem count_sobrantes_secreto (g t : Code) (c : Color) :
    (sobrantes_secreto g t).count c = counter2 g t c := by
  obtain ⟨a0, a1, a2, a3⟩ := g
  obtain ⟨b0, b1, b2, b3⟩ := t
  by_cases h0 : a0 = b0 <;> by_cases h1 : a1 = b1 <;> by_cases h2 : a2 = b2 <;>
    by_cases h3 : a3 = b3 <;>
    (simp only [sobrantes_secreto, posiciones, counter2, List.filter_cons, List.filter_nil,
      en_cero, en_uno, en_dos, en_tres, bne_iff_ne, ne_eq, h0, h1, h2, h3,
      not_false_eq_true, not_true_eq_false, ite_true, ite_false, false_and, true_and,
      List.map_cons, List.map_nil, List.count_cons, List.count_nil, beq_iff_eq] <;>
      first
        | (split_ifs <;> omega)
        | omega)

/-- The reference color-match count agrees with the scorer's tally. -/
theorem colores_ref_eq (g t : Code) : colores_referencia g t = colores_comunes g t :=
  Finset.sum_congr rfl fun c _ => by
    rw [count_sobrantes_guia, count_sobrantes_secreto]

/-- Claim C1: for every pair of codes, the scorer returns exactly the
reference score — exact matches are the positions where the codes agree
and color matches are the per-symbol minimum of leftover occurrence
counts — and the filter's consistency predicate accepts a feedback pair
exactly when the reference score equals it.  In particular
`score((A,B,C,D), (D,C,B,A)) = (0, 4)` for the first four alphabet
symbols `azul, rojo, blanco, negro`. -/
theorem c1_puntuacion_referencia :
    (∀ g t : Code, evaluar_combinacion g t = puntuacion_referencia g t ∧
      ∀ e c : Nat, (coincide_feedback g t e c ↔ evaluar_combinacion g t = (e, c))) ∧
    evaluar_combinacion (Color.azul, Color.rojo, Color.blanco, Color.negro)
      (Color.negro, Color.blanco, Color.rojo, Color.azul) = (0, 4) := by
  refine ⟨fun g t => ⟨?_, fun e c => ?_⟩, by decide⟩
  · rw [evaluar_combinacion, puntuacion_referencia, exactitud_eq, colores_ref_eq]
  · rw [coincide_feedback, evaluar_combinacion, Prod.mk.injEq]

/-- A token resolves to a color exactly when it is one of the six color
names. -/
theorem color_de_nombre_isSome (s : List Char) :
    (color_de_nombre s).isSome ↔ s ∈ COLORES := by
  simp only [color_de_nombre, COLORES]
  split_ifs <;> simp_all

/-- Claim C9: the parser constructs a code exactly when the input splits
(on commas when a comma is present, otherwise on whitespace) into exactly
4 tokens each of which — stripped and lowercased, as the tokenization of
`tokens_de` does — is one of the six alphabet names; for any other input
(wrong token count or unknown symbol) it returns `none` and no code is
constructed. -/
theorem c9_analisis_entrada (entrada : List Char) :
    (convertir_entrada_a_combinacion entrada).isSome ↔
      ((tokens_de entrada).length = 4 ∧ ∀ t ∈ tokens_de entrada, t ∈ COLORES) := by
  unfold convertir_entrada_a_combinacion
  rcases h : tokens_de entrada with _ | ⟨c1, _ | ⟨c2, _ | ⟨c3, _ | ⟨c4, _ | ⟨c5, resto⟩⟩⟩⟩⟩
  · simp
  · simp
  · simp
  · simp
  · rcases hc1 : color_de_nombre c1 with _ | a <;>
      rcases hc2 : color_de_nombre c2 with _ | b <;>
      rcases hc3 : color_de_nombre c3 with _ | c <;>
      rcases hc4 : color_de_nombre c4 with _ | d <;>
      simp [hc1, hc2, hc3, hc4, ← color_de_nombre_isSome]
  · simp only [Option.isSome_none, Bool.false_eq_true, false_iff]
    exact fun habs => absurd habs.1 (by simp [List.length_cons] <;> omega)

/-- Loop invariant of `modo_automatico`: if at the top of an iteration the
history holds one more entry than the attempt counter and starts with the
initial universe size, then whenever the loop returns, the returned
history has exactly as many entries as the returned attempt count, still
starting with the universe size (one entry is appended per attempt except
the final solving one). -/
theorem ciclo_historia (secreta : Code) (rng : Nat → Azar) :
    ∀ (fuel : Nat) (kb : MastermindKB) (intentos : Nat) (historia : List Nat)
      (n : Nat) (hist : List Nat),
      historia.length = intentos + 1 → historia.head? = some 1296 →
      ciclo_automatico secreta rng fuel kb intentos historia = some (n, hist) →
      hist.length = n ∧ hist.head? = some 1296 := by
  intro fuel
  induction fuel with
  | zero =>
    intro kb i historia n hist _ _ hrun
    simp [ciclo_automatico] at hrun
  | succ fuel ih =>
    intro kb i historia n hist hlen hhead hrun
    simp only [ciclo_automatico] at hrun
    split_ifs at hrun with h4
    · simp only [Option.some.injEq, Prod.mk.injEq] at hrun
      obtain ⟨hn, hh⟩ := hrun
      subst hn
      subst hh
      exact ⟨hlen, hhead⟩
    · exact ih _ _ _ _ _ (by simp [hlen]) (by simp [List.head?_append, hhead]) hrun

/-- Claim C10: whenever `modo_automatico` returns `(attempts, history)`,
the history has exactly `attempts` entries and its first entry is 1296,
the universe size recorded before any guess (the invariant
`len(history) = attempts + 1 - [final attempt not appended]` maintained by
`ciclo_historia`). -/
theorem c10_historia_intentos (secreta : Code) (rng : Nat → Azar) (fuel n : Nat)
    (hist : List Nat)
    (h : MastermindSolver.modo_automatico secreta rng fuel = some (n, hist)) :
    hist.length = n ∧ hist.head? = some 1296 := by
  refine ciclo_historia secreta rng fuel MastermindKB.init 0 _ n hist (by simp) ?_ h
  rw [show MastermindKB.init.tamano_espacio_busqueda = 1296 from card_universo]
  rfl

/-- One-step evaluation of the automated run when the secret equals the
fixed opening: it solves at attempt 1 with history `[1296]`. -/
theorem modo_apertura_uno :
    MastermindSolver.modo_automatico apertura rng_adverso 1 = some (1, [1296]) := by
  show ciclo_automatico apertura rng_adverso (0 + 1) MastermindKB.init 0
      [MastermindKB.init.tamano_espacio_busqueda] = some (1, [1296])
  simp only [ciclo_automatico]
  rw [siguiente_lleno MastermindKB.init (rng_adverso 1) rfl,
    show evaluar_combinacion (Color.azul, Color.azul, Color.rojo, Color.verde) apertura =
      (4, 0) from by decide,
    show MastermindKB.init.tamano_espacio_busqueda = 1296 from card_universo]
  simp

/-- Witness for C10 at a concrete input: with secret equal to the fixed
opening, the automated run solves at the first attempt and returns the
one-entry history `[1296]`. -/
theorem c10_historia_intentos_testigo :
    MastermindSolver.modo_automatico apertura rng_adverso 1 = some (1, [1296]) ∧
      ([1296] : List Nat).length = 1 ∧ ([1296] : List Nat).head? = some 1296 :=
  ⟨modo_apertura_uno,
    c10_historia_intentos apertura rng_adverso 1 1 [1296] modo_apertura_uno⟩

/-!
The adversarial non-terminating run of claim C3.
-/

/-- Membership in the 81-element product list, componentwise. -/
theorem mem_lista81 (c0 c1 c2 c3 : Color) :
    ((c0, c1, c2, c3) : Code) ∈ lista81 ↔
      c0 ∈ lista_bnp ∧ c1 ∈ lista_bnp ∧ c2 ∈ lista_bnp ∧ c3 ∈ lista_bnp := by
  simp only [lista81, List.mem_flatMap, List.mem_map, Prod.mk.injEq]
  constructor
  · rintro ⟨a, ha, b, hb, c, hc, d, hd, h0, h1, h2, h3⟩
    subst h0; subst h1; subst h2; subst h3
    exact ⟨ha, hb, hc, hd⟩
  · rintro ⟨h0, h1, h2, h3⟩
    exact ⟨c0, h0, c1, h1, c2, h2, c3, h3, rfl, rfl, rfl, rfl⟩

/-- A code is consistent with the opening probe and feedback `(0, 0)`
exactly when it avoids the opening's three colors altogether. -/
theorem coincide_apertura_iff (c0 c1 c2 c3 : Color) :
    coincide_feedback apertura (c0, c1, c2, c3) 0 0 ↔
      c0 ∈ lista_bnp ∧ c1 ∈ lista_bnp ∧ c2 ∈ lista_bnp ∧ c3 ∈ lista_bnp := by
  revert c0 c1 c2 c3
  decide

/-- Filtering the full universe with the opening's true feedback against
the all-negro secret keeps exactly the 81 codes over
`{blanco, negro, purpura}`. -/
theorem filtro_apertura :
    (Finset.univ : Finset Code).filter (fun c => coincide_feedback apertura c 0 0) =
      lista81.toFinset := by
  ext c
  obtain ⟨c0, c1, c2, c3⟩ := c
  rw [Finset.mem_filter, List.mem_toFinset, mem_lista81, coincide_apertura_iff]
  simp

/-- The secret of the adversarial run is one of the 81 stuck candidates. -/
theorem secreto_en_81 : secreto_adverso ∈ lista81.toFinset :=
  List.mem_toFinset.mpr (by decide)

/-- The opening scores `(0, 0)` against the all-negro secret. -/
theorem evaluar_apertura_adverso :
    evaluar_combinacion apertura secreto_adverso = (0, 0) := by
  decide

/-- First iteration of the adversarial run: filtering the full universe
with the opening's feedback lands exactly on the stuck knowledge base. -/
theorem paso_inicial :
    kb_tras_feedback secreto_adverso apertura MastermindKB.init = kb_atascada := by
  simp only [kb_tras_feedback, evaluar_apertura_adverso]
  simp only [MastermindKB.actualizar_con_feedback]
  rw [if_neg (by omega)]
  have hfil : MastermindKB.init.combinaciones_posibles.filter
      (fun c => coincide_feedback apertura c 0 0) = lista81.toFinset := filtro_apertura
  rw [hfil, if_neg (fun hand => Finset.ne_empty_of_mem secreto_en_81 hand.1)]
  rfl

/-- The selector's fixed opening, under its source name. -/
theorem siguiente_lleno_apertura (kb : MastermindKB) (r : Azar)
    (h : kb.combinaciones_posibles.card = (Finset.univ : Finset Code).card) :
    kb.siguiente_combinacion r = apertura :=
  siguiente_lleno kb r h

/-- The stuck candidate set has 81 elements. -/
theorem card_atascada : kb_atascada.combinaciones_posibles.card = 81 := by
  decide

/-- Every code over `{blanco, negro, purpura}` is consistent with the
all-azul probe and feedback `(0, 0)`. -/
theorem coincide_primera (c0 c1 c2 c3 : Color) :
    c0 ∈ lista_bnp → c1 ∈ lista_bnp → c2 ∈ lista_bnp → c3 ∈ lista_bnp →
      coincide_feedback primera_probe (c0, c1, c2, c3) 0 0 := by
  revert c0 c1 c2 c3
  decide

/-- Filtering the stuck set with the all-azul probe's feedback keeps all
of it. -/
theorem filtro_atascado :
    kb_atascada.combinaciones_posibles.filter
        (fun c => coincide_feedback primera_probe c 0 0) =
      kb_atascada.combinaciones_posibles := by
  refine Finset.filter_eq_self.mpr fun c hc => ?_
  obtain ⟨c0, c1, c2, c3⟩ := c
  obtain ⟨h0, h1, h2, h3⟩ := (mem_lista81 c0 c1 c2 c3).mp (List.mem_toFinset.mp hc)
  exact coincide_primera c0 c1 c2 c3 h0 h1 h2 h3

/-- The all-azul probe scores `(0, 0)` against the all-negro secret. -/
theorem evaluar_primera :
    evaluar_combinacion primera_probe secreto_adverso = (0, 0) := by
  decide

set_option maxRecDepth 3000 in
set_option maxHeartbeats 4000000 in
/-- In the stuck state the adversarial oracle's minimax tier keeps its
first probe: every probe's 50 sampled candidates all produce feedback
`(0, 0)`, so every probe scores 50 and the strict-less comparison never
replaces the first. -/
theorem mejor_adverso : mejor_combinacion azar_adverso = some primera_probe := by
  decide

/-- The guess selector, run in the stuck state with the adversarial
oracle, proposes the all-azul probe. -/
theorem siguiente_atascada :
    kb_atascada.siguiente_combinacion azar_adverso = primera_probe := by
  have hne : kb_atascada.combinaciones_posibles ≠ ∅ :=
    Finset.ne_empty_of_mem secreto_en_81
  simp only [MastermindKB.siguiente_combinacion]
  rw [if_neg hne,
    if_neg (by rw [card_atascada, card_universo]; omega),
    if_neg (by rw [card_atascada]; omega),
    if_neg (by rw [card_atascada]; omega),
    mejor_adverso]

/-- Filtering the stuck state with the all-azul probe's true feedback
leaves it unchanged. -/
theorem paso_atascado :
    kb_tras_feedback secreto_adverso primera_probe kb_atascada = kb_atascada := by
  simp only [kb_tras_feedback, evaluar_primera]
  simp only [MastermindKB.actualizar_con_feedback]
  rw [if_neg (by omega), filtro_atascado,
    if_neg (fun hand => Finset.ne_empty_of_mem secreto_en_81 hand.1)]

/-- The candidate-set cardinality of a fresh knowledge base. -/
theorem card_init : MastermindKB.init.combinaciones_posibles.card = 1296 :=
  card_universo

/-- The adversarial oracle round is a legal behaviour of the random module
at the fresh knowledge base (probes may come from anywhere in the
universe because `1296 > 50`). -/
theorem valido_adverso_init : Azar.valido MastermindKB.init azar_adverso := by
  refine ⟨fun _ => ⟨Finset.mem_univ _, Finset.mem_univ _, Finset.mem_univ _⟩,
    by decide, ?_, ?_, ?_⟩
  · rw [card_init]
    decide
  · intro h50
    rw [card_init] at h50
    exact absurd h50 (by omega)
  · intro k _
    refine ⟨?_, ?_, fun c _ => Finset.mem_univ c⟩
    · show lista50.Nodup
      decide
    · rw [card_init]
      show lista50.length = min 50 1296
      decide

/-- The adversarial oracle round is a legal behaviour of the random module
at the stuck knowledge base: its 81 candidates exceed 50, so probes are
legally drawn from the whole universe, while the per-probe candidate
samples are 50 distinct members of the stuck set. -/
theorem valido_adverso_atascada : Azar.valido kb_atascada azar_adverso := by
  refine ⟨fun _ => ⟨secreto_en_81, secreto_en_81, secreto_en_81⟩,
    by decide, ?_, ?_, ?_⟩
  · rw [card_atascada]
    decide
  · intro h50
    rw [card_atascada] at h50
    exact absurd h50 (by omega)
  · intro k _
    refine ⟨?_, ?_, fun c hc => List.mem_toFinset.mpr (List.take_subset 50 lista81 hc)⟩
    · show lista50.Nodup
      decide
    · rw [card_atascada]
      show lista50.length = min 50 81
      decide

/-- Once in the stuck state with the adversarial source, the automated
loop never returns, for any amount of fuel. -/
theorem atascada_para_siempre :
    ∀ (fuel intentos : Nat) (historia : List Nat),
      ciclo_automatico secreto_adverso rng_adverso fuel kb_atascada intentos historia =
        none := by
  intro fuel
  induction fuel with
  | zero => intro i h; rfl
  | succ fuel ih =>
    intro i h
    simp only [ciclo_automatico, rng_adverso, siguiente_atascada, evaluar_primera]
    rw [if_neg (by omega), paso_atascado]
    exact ih _ _

/-- The stationary adversarial source is valid along the stuck run, for
any amount of fuel. -/
theorem valida_para_siempre :
    ∀ (fuel intentos : Nat),
      ejecucion_valida secreto_adverso rng_adverso fuel kb_atascada intentos := by
  intro fuel
  induction fuel with
  | zero => intro i; trivial
  | succ fuel ih =>
    intro i
    simp only [ejecucion_valida, rng_adverso, siguiente_atascada, paso_atascado]
    exact ⟨valido_adverso_atascada, Or.inr (ih _)⟩

/-- One-step unfolding of `ejecucion_valida` at positive fuel. -/
theorem ejecucion_valida_succ (combinacion_secreta : Code) (rng : Nat → Azar)
    (fuel : Nat) (kb : MastermindKB) (intentos : Nat) :
    ejecucion_valida combinacion_secreta rng (fuel + 1) kb intentos ↔
      (Azar.valido kb (rng (intentos + 1)) ∧
        ((evaluar_combinacion (kb.siguiente_combinacion (rng (intentos + 1)))
            combinacion_secreta).1 = 4 ∨
          ejecucion_valida combinacion_secreta rng fuel
            (kb_tras_feedback combinacion_secreta
              (kb.siguiente_combinacion (rng (intentos + 1))) kb)
            (intentos + 1))) :=
  Iff.rfl

/-- One-step unfolding of the automated loop at positive fuel. -/
theorem ciclo_automatico_succ (combinacion_secreta : Code) (rng : Nat → Azar)
    (fuel : Nat) (kb : MastermindKB) (intentos : Nat) (historia : List Nat) :
    ciclo_automatico combinacion_secreta rng (fuel + 1) kb intentos historia =
      (if (evaluar_combinacion (kb.siguiente_combinacion (rng (intentos + 1)))
            combinacion_secreta).1 = 4 then
        some (intentos + 1, historia)
      else
        ciclo_automatico combinacion_secreta rng fuel
          (kb_tras_feedback combinacion_secreta
            (kb.siguiente_combinacion (rng (intentos + 1))) kb)
          (intentos + 1)
          (historia ++ [(kb_tras_feedback combinacion_secreta
            (kb.siguiente_combinacion (rng (intentos + 1))) kb).tamano_espacio_busqueda])) :=
  rfl

/-- The adversarial source is valid along the whole run from the fresh
knowledge base. -/
theorem ejecucion_valida_adversa :
    ejecucion_valida secreto_adverso rng_adverso 1296 MastermindKB.init 0 := by
  show ejecucion_valida secreto_adverso rng_adverso (1295 + 1) MastermindKB.init 0
  rw [ejecucion_valida_succ, show rng_adverso (0 + 1) = azar_adverso from rfl,
    siguiente_lleno_apertura MastermindKB.init azar_adverso rfl, paso_inicial]
  exact ⟨valido_adverso_init, Or.inr (valida_para_siempre 1295 1)⟩

/-- The adversarial run makes no progress: after 1296 attempts the loop
has not returned. -/
theorem modo_adverso_none :
    MastermindSolver.modo_automatico secreto_adverso rng_adverso 1296 = none := by
  show ciclo_automatico secreto_adverso rng_adverso (1295 + 1) MastermindKB.init 0
      [MastermindKB.init.tamano_espacio_busqueda] = none
  rw [ciclo_automatico_succ, show rng_adverso (0 + 1) = azar_adverso from rfl,
    siguiente_lleno_apertura MastermindKB.init azar_adverso rfl, evaluar_apertura_adverso,
    paso_inicial]
  rw [if_neg (by decide)]
  exact atascada_para_siempre 1295 _ _

/-- Counterexample to claim C3 as stated: a concrete secret and a concrete
legal behaviour of the random sampling source (valid at every iteration
actually reached, as `ejecucion_valida` certifies) under which the
automated run does not terminate within `|universe| = 1296` attempts — in
fact `atascada_para_siempre` shows the loop never returns with any amount
of fuel, because with more than 50 candidates the probes are legally
sampled from the full universe and an adversarial sample makes the filter
a no-op forever. -/
theorem c3_contraejemplo :
    ejecucion_valida secreto_adverso rng_adverso 1296 MastermindKB.init 0 ∧
      MastermindSolver.modo_automatico secreto_adverso rng_adverso 1296 = none :=
  ⟨ejecucion_valida_adversa, modo_adverso_none⟩

/-- Core induction for the amended claim C3: if the secret is still a
candidate, the candidate count is at most the available fuel, and every
guess issued along the run belongs to the then-current candidate set,
then the loop returns within that fuel. -/
theorem ciclo_termina (combinacion_secreta : Code) (rng : Nat → Azar) :
    ∀ (fuel : Nat) (kb : MastermindKB) (intentos : Nat) (historia : List Nat),
      combinacion_secreta ∈ kb.combinaciones_posibles →
      kb.combinaciones_posibles.card ≤ fuel →
      guias_en_posibles combinacion_secreta rng fuel kb intentos →
      ∃ n hist, ciclo_automatico combinacion_secreta rng fuel kb intentos historia =
          some (n, hist) ∧ n ≤ intentos + fuel := by
  intro fuel
  induction fuel with
  | zero =>
    intro kb i historia hsec hcard _
    exact absurd (Finset.card_pos.mpr ⟨_, hsec⟩) (by omega)
  | succ fuel ih =>
    intro kb i historia hsec hcard hguias
    obtain ⟨hg, hrest⟩ := hguias
    by_cases h4 : (evaluar_combinacion (kb.siguiente_combinacion (rng (i + 1)))
        combinacion_secreta).1 = 4
    · refine ⟨i + 1, historia, ?_, by omega⟩
      rw [ciclo_automatico_succ, if_pos h4]
    · have hrest' : guias_en_posibles combinacion_secreta rng fuel
          (kb_tras_feedback combinacion_secreta
            (kb.siguiente_combinacion (rng (i + 1))) kb) (i + 1) := by
        rcases hrest with h | h
        · exact absurd h h4
        · exact h
      have heq := kb_tras_feedback_eq kb (kb.siguiente_combinacion (rng (i + 1)))
        combinacion_secreta hsec
      have hsec' : combinacion_secreta ∈
          (kb_tras_feedback combinacion_secreta
            (kb.siguiente_combinacion (rng (i + 1))) kb).combinaciones_posibles :=
        secreto_permanece kb _ combinacion_secreta hsec
      have hnotin : kb.siguiente_combinacion (rng (i + 1)) ∉
          (kb_tras_feedback combinacion_secreta
            (kb.siguiente_combinacion (rng (i + 1))) kb).combinaciones_posibles := by
        rw [heq]
        intro hmem
        obtain ⟨hpos, -⟩ := (Finset.mem_filter.mp hmem).2
        have hself : pos_correctas (kb.siguiente_combinacion (rng (i + 1)))
            (kb.siguiente_combinacion (rng (i + 1))) = 4 :=
          (pos_correctas_eq_four_iff _ _).mpr rfl
        rw [hself] at hpos
        exact h4 hpos.symm
      have hsub : (kb_tras_feedback combinacion_secreta
          (kb.siguiente_combinacion (rng (i + 1))) kb).combinaciones_posibles ⊆
          kb.combinaciones_posibles := by
        rw [heq]
        exact Finset.filter_subset _ _
      have hlt : (kb_tras_feedback combinacion_secreta
          (kb.siguiente_combinacion (rng (i + 1))) kb).combinaciones_posibles.card <
          kb.combinaciones_posibles.card :=
        Finset.card_lt_card ((Finset.ssubset_iff_of_subset hsub).mpr ⟨_, hg, hnotin⟩)
      obtain ⟨n, hist, hrun, hn⟩ := ih _ (i + 1)
        (historia ++ [(kb_tras_feedback combinacion_secreta
          (kb.siguiente_combinacion (rng (i + 1))) kb).tamano_espacio_busqueda])
        hsec' (by omega) hrest'
      refine ⟨n, hist, ?_, by omega⟩
      rw [ciclo_automatico_succ, if_neg h4]
      exact hrun

/-- Claim C3 as amended: for every secret and every behaviour of the
random source under which each guess issued while the loop keeps going
lies in the then-current candidate set (always the case in the tiers that
draw from `possible`; the property an adversarial universe-sampled probe
can break), the automated run returns within `|universe| = 1296`
attempts.  As stated — for every behaviour of the random source — the
claim is false (`c3_contraejemplo`). -/
theorem c3_convergencia_enmendada (combinacion_secreta : Code) (rng : Nat → Azar)
    (h : guias_en_posibles combinacion_secreta rng 1296 MastermindKB.init 0) :
    ∃ n hist, MastermindSolver.modo_automatico combinacion_secreta rng 1296 =
        some (n, hist) ∧ n ≤ 1296 := by
  obtain ⟨n, hist, hrun, hn⟩ := ciclo_termina combinacion_secreta rng 1296
    MastermindKB.init 0 [MastermindKB.init.tamano_espacio_busqueda]
    (Finset.mem_univ _) (by rw [card_init]) h
  exact ⟨n, hist, hrun, by omega⟩

/-- With secret equal to the fixed opening, every guess issued along the
(one-attempt) run is in the candidate set. -/
theorem guias_apertura :
    guias_en_posibles apertura rng_adverso 1296 MastermindKB.init 0 := by
  show guias_en_posibles apertura rng_adverso (1295 + 1) MastermindKB.init 0
  refine ⟨Finset.mem_univ _, Or.inl ?_⟩
  rw [show rng_adverso (0 + 1) = azar_adverso from rfl,
    siguiente_lleno_apertura MastermindKB.init azar_adverso rfl]
  decide

/-- Witness for the amended C3 at a concrete input: secret equal to the
fixed opening, adversarial source; the run solves at attempt 1 ≤ 1296. -/
theorem c3_convergencia_enmendada_testigo :
    guias_en_posibles apertura rng_adverso 1296 MastermindKB.init 0 ∧
      ∃ n hist, MastermindSolver.modo_automatico apertura rng_adverso 1296 =
          some (n, hist) ∧ n ≤ 1296 :=
  ⟨guias_apertura, c3_convergencia_enmendada apertura rng_adverso guias_apertura⟩
